import Mathlib

/-!
Verification development for the huginn traffic-profiler core
(crates huginn-core, huginn-collector, huginn-api).

Shallow embedding conventions:
* Rust `f64` quality/completeness scores are modelled as exact rationals
  (`Rat`); the code only adds and compares the literals 0.0, 0.3, 0.4, 1.0
  and observed qualities, so the embedding tracks the algorithm exactly.
* `chrono::DateTime<Utc>` instants are modelled as `Nat`; every operation
  that calls `Utc::now()` in Rust receives the current instant `now`
  explicitly.
* `std::net::IpAddr` values are modelled as their string rendering; the
  round trip `IpAddr::from_str(&ip.to_string())` performed by the analyzer
  on an already-typed `IpAddr` cannot fail and is modelled as the identity.
* External `huginn_net` output records (`SynTCPOutput`, …) are modelled
  with the fields the analyzer reads; string renderings of external
  signature types (`sig.to_string()`, `convert_tcp_details(sig)`,
  `extract_os_string(&m.os)`, `extract_distance(&sig.ittl)`) are carried
  as precomputed fields of the event, since the analyzer treats them as
  opaque derived data.
* Rust in-place mutation is modelled by functions returning the new value;
  `HashMap<String, TrafficProfile>` is modelled as an association list with
  unique keys (`ProfileTable`).
-/

/-- Network endpoint (IP + port); `profile.rs`, `NetworkEndpoint`. -/
structure NetworkEndpoint where
  ip : String
  port : Nat
  deriving DecidableEq, Repr

/-- OS detection result; `profile.rs`, `OsDetection`. -/
structure OsDetection where
  os : String
  quality : Rat
  distance : Nat
  deriving DecidableEq, Repr

/-- Detailed TCP characteristics; `profile.rs`, `TcpDetails`. -/
structure TcpDetails where
  version : String
  initial_ttl : String
  options_length : Nat
  mss : Option Nat
  window_size : String
  window_scale : Option Nat
  options_layout : String
  quirks : String
  payload_class : String
  deriving DecidableEq, Repr

/-- Detailed HTTP characteristics; `profile.rs`, `HttpDetails`. -/
structure HttpDetails where
  version : String
  header_order : String
  headers_absent : String
  expected_software : String
  deriving DecidableEq, Repr

/-- Detailed TLS characteristics; `profile.rs`, `TlsDetails`. -/
structure TlsDetails where
  version : String
  sni : Option String
  alpn : Option String
  cipher_suites : List Nat
  extensions : List Nat
  signature_algorithms : List Nat
  elliptic_curves : List Nat
  deriving DecidableEq, Repr

/-- TCP connection analysis; `profile.rs`, `TcpAnalysis`. -/
structure TcpAnalysis where
  os : String
  quality : Rat
  distance : Nat
  signature : String
  details : TcpDetails
  deriving DecidableEq, Repr

/-- HTTP request data (from client); `profile.rs`, `HttpRequestData`. -/
structure HttpRequestData where
  user_agent : Option String
  accept : Option String
  accept_language : Option String
  accept_encoding : Option String
  connection : Option String
  method : Option String
  host : Option String
  signature : String
  quality : Rat
  deriving DecidableEq, Repr

/-- HTTP response data (from server); `profile.rs`, `HttpResponseData`. -/
structure HttpResponseData where
  server : Option String
  content_type : Option String
  content_length : Option String
  set_cookie : Option String
  cache_control : Option String
  status : Option String
  signature : String
  quality : Rat
  deriving DecidableEq, Repr

/-- HTTP request/response analysis; `profile.rs`, `HttpAnalysis`. -/
structure HttpAnalysis where
  browser : String
  quality : Rat
  language : Option String
  diagnosis : String
  signature : String
  details : HttpDetails
  request : Option HttpRequestData
  response : Option HttpResponseData
  deriving DecidableEq, Repr

/-- TLS connection analysis; `profile.rs`, `TlsAnalysis`. -/
structure TlsAnalysis where
  ja4 : String
  ja4_raw : String
  ja4_original : String
  ja4_original_raw : String
  details : TlsDetails
  deriving DecidableEq, Repr

/-- SYN packet data (from client); `profile.rs`, `SynPacketData`. -/
structure SynPacketData where
  source : NetworkEndpoint
  os_detected : Option OsDetection
  signature : String
  details : TcpDetails
  timestamp : Nat
  deriving DecidableEq, Repr

/-- SYN-ACK packet data (from server); `profile.rs`, `SynAckPacketData`. -/
structure SynAckPacketData where
  source : NetworkEndpoint
  destination : NetworkEndpoint
  os_detected : Option OsDetection
  signature : String
  details : TcpDetails
  timestamp : Nat
  deriving DecidableEq, Repr

/-- MTU detection data; `profile.rs`, `MtuData`. -/
structure MtuData where
  source : NetworkEndpoint
  mtu_value : Nat
  timestamp : Nat
  deriving DecidableEq, Repr

/-- Uptime detection data; `profile.rs`, `UptimeData`. -/
structure UptimeData where
  source : NetworkEndpoint
  uptime_seconds : Nat
  timestamp : Nat
  deriving DecidableEq, Repr

/-- TLS client data; `profile.rs`, `TlsClientData`. -/
structure TlsClientData where
  source : NetworkEndpoint
  ja4 : String
  ja4_raw : String
  details : TlsDetails
  timestamp : Nat
  deriving DecidableEq, Repr

/-- Raw fingerprint data separated by source type; `profile.rs`,
`RawFingerprintData`. -/
structure RawFingerprintData where
  syn : Option SynPacketData
  syn_ack : Option SynAckPacketData
  mtu : Option MtuData
  uptime : Option UptimeData
  http_request : Option HttpRequestData
  http_response : Option HttpResponseData
  tls_client : Option TlsClientData
  source_ip : Option String
  deriving DecidableEq, Repr

/-- `RawFingerprintData::default()`: every field `None`. -/
def RawFingerprintData.default : RawFingerprintData :=
  { syn := none, syn_ack := none, mtu := none, uptime := none,
    http_request := none, http_response := none, tls_client := none,
    source_ip := none }

/-- Additional profile metadata; `profile.rs`, `ProfileMetadata`. -/
structure ProfileMetadata where
  first_seen : Nat
  last_updated : Nat
  packet_count : Nat
  completeness : Rat
  deriving DecidableEq, Repr

/-- Complete traffic profile for a network endpoint; `profile.rs`,
`TrafficProfile`.  The `ip` field is the string rendering of the Rust
`IpAddr`. -/
structure TrafficProfile where
  ip : String
  port : Nat
  timestamp : Nat
  raw_data : RawFingerprintData
  tcp : Option TcpAnalysis
  tcp_client : Option TcpAnalysis
  tcp_server : Option TcpAnalysis
  http : Option HttpAnalysis
  tls : Option TlsAnalysis
  metadata : ProfileMetadata
  deriving DecidableEq, Repr

/-- `TrafficProfile::new`; `now` stands for the single `Utc::now()` call. -/
def TrafficProfile.new (ip : String) (port : Nat) (now : Nat) : TrafficProfile :=
  { ip := ip, port := port, timestamp := now,
    raw_data := RawFingerprintData.default,
    tcp := none, tcp_client := none, tcp_server := none,
    http := none, tls := none,
    metadata := { first_seen := now, last_updated := now,
                  packet_count := 0, completeness := 0 } }

/-- `TrafficProfile::update_metadata` (private): bump `last_updated` and
`packet_count`, then recompute completeness as
0.4·[tcp ∨ tcp_client ∨ tcp_server] + 0.3·[http] + 0.3·[tls]. -/
def TrafficProfile.update_metadata (p : TrafficProfile) (now : Nat) : TrafficProfile :=
  let score : Rat :=
    (if p.tcp.isSome || p.tcp_client.isSome || p.tcp_server.isSome then (0.4 : Rat) else 0)
      + (if p.http.isSome then (0.3 : Rat) else 0)
      + (if p.tls.isSome then (0.3 : Rat) else 0)
  { p with metadata := { p.metadata with
      last_updated := now,
      packet_count := p.metadata.packet_count + 1,
      completeness := score } }

/-- `TrafficProfile::update_tcp`. -/
def TrafficProfile.update_tcp (p : TrafficProfile) (tcp : TcpAnalysis) (now : Nat) :
    TrafficProfile :=
  ({ p with tcp := some tcp }).update_metadata now

/-- `TrafficProfile::update_tcp_client`. -/
def TrafficProfile.update_tcp_client (p : TrafficProfile) (tcp : TcpAnalysis) (now : Nat) :
    TrafficProfile :=
  ({ p with tcp_client := some tcp }).update_metadata now

/-- `TrafficProfile::update_tcp_server`. -/
def TrafficProfile.update_tcp_server (p : TrafficProfile) (tcp : TcpAnalysis) (now : Nat) :
    TrafficProfile :=
  ({ p with tcp_server := some tcp }).update_metadata now

/-- `TrafficProfile::update_http`: merge request/response sub-records, and
replace the scalar fields only when the new fragment's quality is strictly
greater than the stored quality. -/
def TrafficProfile.update_http (p : TrafficProfile) (http : HttpAnalysis) (now : Nat) :
    TrafficProfile :=
  let p' :=
    match p.http with
    | some existing_http =>
      let e1 := if http.request.isSome then
          { existing_http with request := http.request } else existing_http
      let e2 := if http.response.isSome then
          { e1 with response := http.response } else e1
      let e3 := if http.quality > e2.quality then
          { e2 with browser := http.browser, quality := http.quality,
                    language := http.language, diagnosis := http.diagnosis,
                    signature := http.signature, details := http.details }
        else e2
      { p with http := some e3 }
    | none => { p with http := some http }
  p'.update_metadata now

/-- `TrafficProfile::update_tls`. -/
def TrafficProfile.update_tls (p : TrafficProfile) (tls : TlsAnalysis) (now : Nat) :
    TrafficProfile :=
  ({ p with tls := some tls }).update_metadata now

/-- `TrafficProfile::is_empty`: no per-category analysis data at all. -/
def TrafficProfile.is_empty (p : TrafficProfile) : Bool :=
  p.tcp.isNone && p.tcp_client.isNone && p.tcp_server.isNone
    && p.http.isNone && p.tls.isNone

/-!  External `huginn_net` fingerprint output records, as read by
`analyzer.rs`.  Match results carry the already-extracted label string
(`extract_os_string` / `extract_browser_string` / `extract_web_server_string`
applied to the matched record) and the match quality. -/

/-- A matched label together with its quality, standing for huginn-net's
`os_matched` / `browser_matched` / `web_server_matched` entries. -/
structure MatchedLabel where
  label : String
  quality : Rat
  deriving DecidableEq, Repr

/-- `huginn_net` `SynTCPOutput`, restricted to the fields `analyzer.rs`
reads.  `sig_str`, `sig_details` and `sig_distance` carry `sig.to_string()`,
`convert_tcp_details(&sig)` and `extract_distance(&sig.ittl)`. -/
structure SynTCPOutput where
  source : NetworkEndpoint
  os_matched : Option MatchedLabel
  sig_str : String
  sig_details : TcpDetails
  sig_distance : Nat
  deriving DecidableEq, Repr

/-- `huginn_net` `SynAckTCPOutput`, restricted as for `SynTCPOutput`. -/
structure SynAckTCPOutput where
  source : NetworkEndpoint
  destination : NetworkEndpoint
  os_matched : Option MatchedLabel
  sig_str : String
  sig_details : TcpDetails
  sig_distance : Nat
  deriving DecidableEq, Repr

/-- `huginn_net` `HttpRequestOutput`, restricted to the fields read:
`sig.horder`/`sig.habsent` as lists of rendered header strings,
`sig.version.to_string()` as `sig_version`, `sig.expsw`, `lang`,
`diagnosis.to_string()` and `sig.to_string()`. -/
structure HttpRequestOutput where
  source : NetworkEndpoint
  browser_matched : Option MatchedLabel
  lang : Option String
  diagnosis : String
  sig_str : String
  sig_version : String
  horder : List String
  habsent : List String
  expsw : String
  deriving DecidableEq, Repr

/-- `huginn_net` `HttpResponseOutput`, restricted as for requests. -/
structure HttpResponseOutput where
  source : NetworkEndpoint
  destination : NetworkEndpoint
  web_server_matched : Option MatchedLabel
  diagnosis : String
  sig_str : String
  sig_version : String
  horder : List String
  habsent : List String
  expsw : String
  deriving DecidableEq, Repr

/-- `huginn_net` `TlsClientOutput`, restricted to the fields read; the JA4
fingerprints carry `sig.ja4.full.value()` etc. -/
structure TlsClientOutput where
  source : NetworkEndpoint
  sig_version : String
  sni : Option String
  alpn : Option String
  cipher_suites : List Nat
  extensions : List Nat
  signature_algorithms : List Nat
  elliptic_curves : List Nat
  ja4_full : String
  ja4_raw : String
  ja4_original_full : String
  ja4_original_raw : String
  deriving DecidableEq, Repr

/-- `huginn_net` `MTUOutput`. -/
structure MTUOutput where
  source : NetworkEndpoint
  mtu : Nat
  deriving DecidableEq, Repr

/-- `huginn_net` `UptimeOutput` (the fields `analyzer.rs` reads). -/
structure UptimeOutput where
  source : NetworkEndpoint
  days : Nat
  hours : Nat
  minutes : Nat
  deriving DecidableEq, Repr

/-- `huginn_net` `FingerprintResult`: one event, each sub-record optional. -/
structure FingerprintResult where
  syn : Option SynTCPOutput
  syn_ack : Option SynAckTCPOutput
  mtu : Option MTUOutput
  uptime : Option UptimeOutput
  http_request : Option HttpRequestOutput
  http_response : Option HttpResponseOutput
  tls_client : Option TlsClientOutput
  deriving DecidableEq, Repr

/-- Configuration for the Huginn analyzer; `analyzer.rs`, `AnalyzerConfig`. -/
structure AnalyzerConfig where
  enable_tcp : Bool
  enable_http : Bool
  enable_tls : Bool
  min_quality : Rat
  deriving DecidableEq, Repr

/-- `AnalyzerConfig::default()`. -/
def AnalyzerConfig.default : AnalyzerConfig :=
  { enable_tcp := true, enable_http := true, enable_tls := true, min_quality := 0 }

/-- `HuginnAnalyzer::extract_header_value_from_horder`: find the first
`horder` entry of the shape `name=value`, matching `name` case-insensitively,
and strip one pair of surrounding brackets from the value. -/
def extract_header_value_from_horder (horder : List String) (header_name : String) :
    Option String :=
  horder.findSome? fun header =>
    match header.splitOn "=" with
    | [] => none
    | [_] => none
    | name :: rest =>
      if name.toLower == header_name.toLower then
        let value_part := String.intercalate "=" rest
        if value_part.startsWith "[" && value_part.endsWith "]" then
          some ((value_part.drop 1).dropRight 1)
        else
          some value_part
      else
        none

/-- `HuginnAnalyzer::extract_primary_ip`: priority chain over the event's
sub-records, first match wins; the `IpAddr` round trip is the identity. -/
def extract_primary_ip (result : FingerprintResult) : Except String String :=
  match result.syn with
  | some syn => .ok syn.source.ip
  | none =>
    match result.syn_ack with
    | some syn_ack => .ok syn_ack.destination.ip
    | none =>
      match result.http_request with
      | some http_req => .ok http_req.source.ip
      | none =>
        match result.http_response with
        | some http_res => .ok http_res.destination.ip
        | none =>
          match result.tls_client with
          | some tls_client => .ok tls_client.source.ip
          | none =>
            match result.mtu with
            | some mtu => .ok mtu.source.ip
            | none =>
              match result.uptime with
              | some uptime => .ok uptime.source.ip
              | none => .error "No valid IP found in result"

/-- `HuginnAnalyzer::process_syn_packet` (infallible in the source). -/
def process_syn_packet (syn : SynTCPOutput) (now : Nat) : SynPacketData :=
  { source := syn.source,
    os_detected := syn.os_matched.map fun m =>
      { os := m.label, quality := m.quality, distance := syn.sig_distance },
    signature := syn.sig_str,
    details := syn.sig_details,
    timestamp := now }

/-- `HuginnAnalyzer::process_syn_ack_packet`. -/
def process_syn_ack_packet (syn_ack : SynAckTCPOutput) (now : Nat) : SynAckPacketData :=
  { source := syn_ack.source,
    destination := syn_ack.destination,
    os_detected := syn_ack.os_matched.map fun m =>
      { os := m.label, quality := m.quality, distance := syn_ack.sig_distance },
    signature := syn_ack.sig_str,
    details := syn_ack.sig_details,
    timestamp := now }

/-- `HuginnAnalyzer::process_http_request`. -/
def process_http_request (http_req : HttpRequestOutput) : HttpRequestData :=
  { user_agent := extract_header_value_from_horder http_req.horder "user-agent",
    accept := extract_header_value_from_horder http_req.horder "accept",
    accept_language := extract_header_value_from_horder http_req.horder "accept-language",
    accept_encoding := extract_header_value_from_horder http_req.horder "accept-encoding",
    connection := extract_header_value_from_horder http_req.horder "connection",
    method := some "GET",
    host := extract_header_value_from_horder http_req.horder "host",
    signature := http_req.sig_str,
    quality := (http_req.browser_matched.map MatchedLabel.quality).getD 0 }

/-- `HuginnAnalyzer::process_http_response`. -/
def process_http_response (http_res : HttpResponseOutput) : HttpResponseData :=
  { server := extract_header_value_from_horder http_res.horder "server",
    content_type := extract_header_value_from_horder http_res.horder "content-type",
    content_length := extract_header_value_from_horder http_res.horder "content-length",
    set_cookie := extract_header_value_from_horder http_res.horder "set-cookie",
    cache_control := extract_header_value_from_horder http_res.horder "cache-control",
    status := some "200",
    signature := http_res.sig_str,
    quality := (http_res.web_server_matched.map MatchedLabel.quality).getD 0 }

/-- `HuginnAnalyzer::process_tls_client`. -/
def process_tls_client (tls_client : TlsClientOutput) (now : Nat) : TlsClientData :=
  { source := tls_client.source,
    ja4 := tls_client.ja4_full,
    ja4_raw := tls_client.ja4_raw,
    details := { version := tls_client.sig_version, sni := tls_client.sni,
                 alpn := tls_client.alpn, cipher_suites := tls_client.cipher_suites,
                 extensions := tls_client.extensions,
                 signature_algorithms := tls_client.signature_algorithms,
                 elliptic_curves := tls_client.elliptic_curves },
    timestamp := now }

/-- `HuginnAnalyzer::process_mtu_data`. -/
def process_mtu_data (mtu : MTUOutput) (now : Nat) : MtuData :=
  { source := mtu.source, mtu_value := mtu.mtu, timestamp := now }

/-- `HuginnAnalyzer::process_uptime_data`. -/
def process_uptime_data (uptime : UptimeOutput) (now : Nat) : UptimeData :=
  { source := uptime.source,
    uptime_seconds := uptime.days * 24 * 3600 + uptime.hours * 3600 + uptime.minutes * 60,
    timestamp := now }

/-- `HuginnAnalyzer::analyze_tcp_syn`: drop the fragment when the match
quality is below the configured minimum. -/
def analyze_tcp_syn (cfg : AnalyzerConfig) (syn : SynTCPOutput) : Option TcpAnalysis :=
  let quality := (syn.os_matched.map MatchedLabel.quality).getD 0
  if quality < cfg.min_quality then none
  else some
    { os := (syn.os_matched.map MatchedLabel.label).getD "Unknown",
      quality := quality,
      distance := syn.sig_distance,
      signature := syn.sig_str,
      details := syn.sig_details }

/-- `HuginnAnalyzer::analyze_tcp_syn_ack`. -/
def analyze_tcp_syn_ack (cfg : AnalyzerConfig) (syn_ack : SynAckTCPOutput) :
    Option TcpAnalysis :=
  let quality := (syn_ack.os_matched.map MatchedLabel.quality).getD 0
  if quality < cfg.min_quality then none
  else some
    { os := (syn_ack.os_matched.map MatchedLabel.label).getD "Unknown",
      quality := quality,
      distance := syn_ack.sig_distance,
      signature := syn_ack.sig_str,
      details := syn_ack.sig_details }

/-- `HuginnAnalyzer::analyze_http_request`. -/
def analyze_http_request (cfg : AnalyzerConfig) (http_req : HttpRequestOutput) :
    Option HttpAnalysis :=
  let quality := (http_req.browser_matched.map MatchedLabel.quality).getD 0
  if quality < cfg.min_quality then none
  else
    let details : HttpDetails :=
      { version := http_req.sig_version,
        header_order := String.intercalate ", " http_req.horder,
        headers_absent := String.intercalate ", " http_req.habsent,
        expected_software := http_req.expsw }
    let request_data : HttpRequestData :=
      { user_agent := extract_header_value_from_horder http_req.horder "user-agent",
        accept := extract_header_value_from_horder http_req.horder "accept",
        accept_language := extract_header_value_from_horder http_req.horder "accept-language",
        accept_encoding := extract_header_value_from_horder http_req.horder "accept-encoding",
        connection := extract_header_value_from_horder http_req.horder "connection",
        method := some "GET",
        host := extract_header_value_from_horder http_req.horder "host",
        signature := http_req.sig_str,
        quality := quality }
    some
      { browser := (http_req.browser_matched.map MatchedLabel.label).getD "Unknown",
        quality := quality,
        language := http_req.lang,
        diagnosis := http_req.diagnosis,
        signature := http_req.sig_str,
        details := details,
        request := some request_data,
        response := none }

/-- `HuginnAnalyzer::analyze_http_response`.  NOTE: this function exists in
`analyzer.rs` but is never invoked by `HuginnAnalyzer::analyze`. -/
def analyze_http_response (cfg : AnalyzerConfig) (http_res : HttpResponseOutput) :
    Option HttpAnalysis :=
  let quality := (http_res.web_server_matched.map MatchedLabel.quality).getD 0
  if quality < cfg.min_quality then none
  else
    let details : HttpDetails :=
      { version := http_res.sig_version,
        header_order := String.intercalate ", " http_res.horder,
        headers_absent := String.intercalate ", " http_res.habsent,
        expected_software := http_res.expsw }
    let response_data : HttpResponseData :=
      { server := extract_header_value_from_horder http_res.horder "server",
        content_type := extract_header_value_from_horder http_res.horder "content-type",
        content_length := extract_header_value_from_horder http_res.horder "content-length",
        set_cookie := extract_header_value_from_horder http_res.horder "set-cookie",
        cache_control := extract_header_value_from_horder http_res.horder "cache-control",
        status := some "200",
        signature := http_res.sig_str,
        quality := quality }
    some
      { browser := (http_res.web_server_matched.map MatchedLabel.label).getD "Unknown",
        quality := quality,
        language := none,
        diagnosis := http_res.diagnosis,
        signature := http_res.sig_str,
        details := details,
        request := none,
        response := some response_data }

/-- `HuginnAnalyzer::analyze_tls_client` (always succeeds). -/
def analyze_tls_client (tls_client : TlsClientOutput) : Option TlsAnalysis :=
  some
    { ja4 := tls_client.ja4_full,
      ja4_raw := tls_client.ja4_raw,
      ja4_original := tls_client.ja4_original_full,
      ja4_original_raw := tls_client.ja4_original_raw,
      details := { version := tls_client.sig_version, sni := tls_client.sni,
                   alpn := tls_client.alpn, cipher_suites := tls_client.cipher_suites,
                   extensions := tls_client.extensions,
                   signature_algorithms := tls_client.signature_algorithms,
                   elliptic_curves := tls_client.elliptic_curves } }

/-- The body of `HuginnAnalyzer::analyze` up to (but excluding) the final
emptiness check: extract the primary IP (returning `none` on failure, as
the source logs and returns `Ok(None)`), create the profile, then process
each present sub-record in source order.  Note that an HTTP response only
populates `raw_data.http_response`; `analyze_http_response` is never
called. -/
def analyze_build (cfg : AnalyzerConfig) (result : FingerprintResult) (now : Nat) :
    Option TrafficProfile :=
  match extract_primary_ip result with
  | .error _ => none
  | .ok ip =>
    let profile := TrafficProfile.new ip 0 now
    let profile := { profile with raw_data := { profile.raw_data with source_ip := some ip } }
    let profile :=
      match result.syn with
      | some syn =>
        let profile :=
          { profile with raw_data := { profile.raw_data with
              syn := some (process_syn_packet syn now) } }
        if cfg.enable_tcp then
          match analyze_tcp_syn cfg syn with
          | some tcp_analysis =>
            (profile.update_tcp_client tcp_analysis now).update_tcp tcp_analysis now
          | none => profile
        else profile
      | none => profile
    let profile :=
      match result.syn_ack with
      | some syn_ack =>
        let profile :=
          { profile with raw_data := { profile.raw_data with
              syn_ack := some (process_syn_ack_packet syn_ack now) } }
        if cfg.enable_tcp then
          match analyze_tcp_syn_ack cfg syn_ack with
          | some tcp_analysis => profile.update_tcp_server tcp_analysis now
          | none => profile
        else profile
      | none => profile
    let profile :=
      match result.http_request with
      | some http_req =>
        let profile :=
          { profile with raw_data := { profile.raw_data with
              http_request := some (process_http_request http_req) } }
        if cfg.enable_http then
          match analyze_http_request cfg http_req with
          | some http_analysis => profile.update_http http_analysis now
          | none => profile
        else profile
      | none => profile
    let profile :=
      match result.http_response with
      | some http_res =>
        { profile with raw_data := { profile.raw_data with
            http_response := some (process_http_response http_res) } }
      | none => profile
    let profile :=
      match result.tls_client with
      | some tls_client =>
        let profile :=
          { profile with raw_data := { profile.raw_data with
              tls_client := some (process_tls_client tls_client now) } }
        if cfg.enable_tls then
          match analyze_tls_client tls_client with
          | some tls_analysis => profile.update_tls tls_analysis now
          | none => profile
        else profile
      | none => profile
    let profile :=
      match result.mtu with
      | some mtu =>
        { profile with raw_data := { profile.raw_data with
            mtu := some (process_mtu_data mtu now) } }
      | none => profile
    let profile :=
      match result.uptime with
      | some uptime =>
        { profile with raw_data := { profile.raw_data with
            uptime := some (process_uptime_data uptime now) } }
      | none => profile
    some profile

/-- `HuginnAnalyzer::analyze`: build the profile and return it only when it
carries some analysis data (the Rust `Result` wrapper is always `Ok` and is
dropped). -/
def analyze (cfg : AnalyzerConfig) (result : FingerprintResult) (now : Nat) :
    Option TrafficProfile :=
  match analyze_build cfg result now with
  | none => none
  | some profile => if profile.is_empty then none else some profile

/-!  Collector: profile table, merge policy and event processing
(`huginn-collector/src/collector.rs`). -/

/-- The collector's `HashMap<String, TrafficProfile>` as an association
list; the `HashMap` key-uniqueness invariant is carried by the operations
(updates replace in place, inserts append a fresh key). -/
abbrev ProfileTable := List (String × TrafficProfile)

/-- `HashMap::get`. -/
def tableGet : ProfileTable → String → Option TrafficProfile
  | [], _ => none
  | (k, v) :: rest, key => if k = key then some v else tableGet rest key

/-- In-place replacement of the value stored at an existing key
(`get_mut` followed by assignment). -/
def tableUpdate : ProfileTable → String → TrafficProfile → ProfileTable
  | [], _, _ => []
  | (k, v) :: rest, key, nv =>
    if k = key then (k, nv) :: rest else (k, v) :: tableUpdate rest key nv

/-- `NetworkCollector::merge_profiles`: category fields are replaced
wholesale when the incoming profile has them (`tcp_client` / `tcp_server`
are not merged at all), packet counts add, and completeness is recomputed
from the legacy `tcp` / `http` / `tls` fields only. -/
def merge_profiles (existing incoming : TrafficProfile) : TrafficProfile :=
  let e := if incoming.tcp.isSome then { existing with tcp := incoming.tcp } else existing
  let e := if incoming.http.isSome then { e with http := incoming.http } else e
  let e := if incoming.tls.isSome then { e with tls := incoming.tls } else e
  let e := { e with
    timestamp := incoming.timestamp,
    metadata := { e.metadata with
      last_updated := incoming.metadata.last_updated,
      packet_count := e.metadata.packet_count + incoming.metadata.packet_count } }
  let score : Rat :=
    (if e.tcp.isSome then (0.4 : Rat) else 0)
      + (if e.http.isSome then (0.3 : Rat) else 0)
      + (if e.tls.isSome then (0.3 : Rat) else 0)
  { e with metadata := { e.metadata with completeness := score } }

/-- `NetworkCollector::process_fingerprint_result`: analyze the event, and
on a non-empty result merge it into the existing entry for its
`"ip:port"` key or insert it as a new entry.  Analysis never fails in the
embedding (the Rust error path is unreachable), and `Ok(None)` leaves the
table untouched. -/
def process_fingerprint_result (cfg : AnalyzerConfig) (t : ProfileTable)
    (result : FingerprintResult) (now : Nat) : ProfileTable :=
  match analyze cfg result now with
  | none => t
  | some profile =>
    let key := profile.ip ++ ":" ++ toString profile.port
    match tableGet t key with
    | some existing => tableUpdate t key (merge_profiles existing profile)
    | none => t ++ [(key, profile)]

/-- Folding `process_fingerprint_result` over a sequence of bridged events,
in arrival order (the aggregation actor is the single writer). -/
def process_events (cfg : AnalyzerConfig) (t : ProfileTable)
    (events : List FingerprintResult) (now : Nat) : ProfileTable :=
  events.foldl (fun acc r => process_fingerprint_result cfg acc r now) t

/-!  Channel bridge (`huginn-collector/src/bridge.rs`).  The blocking input
queue is modelled as the finite list of events the producer sends before
dropping its end (after which `recv` returns `Err` and the loop breaks with
`Ok`).  The async output queue's consumer accepts `cap` further sends and
then fails every send (the consumer has been dropped). -/

/-- Errors of the collector crate, restricted to the variant the bridge
produces; `error.rs`, `CollectorError::channel`. -/
inductive CollectorError where
  | channel (msg : String)
  deriving DecidableEq, Repr

/-- `ChannelBridge::start_blocking`: repeatedly dequeue one event and
forward it; returns the list of forwarded events together with the loop's
result (`Ok` on input disconnect, a channel error on send failure). -/
def start_blocking : List FingerprintResult → Nat →
    List FingerprintResult × Except CollectorError Unit
  | [], _ => ([], .ok ())
  | _ :: _, 0 => ([], .error (.channel "Failed to send to async channel"))
  | e :: rest, cap + 1 =>
    let r := start_blocking rest cap
    (e :: r.1, r.2)

/-!  Collector configuration (`huginn-collector/src/config.rs`) and
construction (`collector.rs`, `NetworkCollector::new`). -/

/-- Configuration for the network collector; `config.rs`,
`CollectorConfig`. -/
structure CollectorConfig where
  interface : String
  buffer_size : Nat
  channel_buffer_size : Nat
  analyzer : AnalyzerConfig
  verbose : Bool
  deriving DecidableEq, Repr

/-- `CollectorConfig::validate`. -/
def CollectorConfig.validate (c : CollectorConfig) : Except String Unit :=
  if c.interface.isEmpty then .error "Interface cannot be empty"
  else if c.buffer_size = 0 then .error "Buffer size must be greater than 0"
  else if c.channel_buffer_size = 0 then
    .error "Channel buffer size must be greater than 0"
  else if c.analyzer.min_quality < 0 || c.analyzer.min_quality > 1 then
    .error "Minimum quality must be between 0.0 and 1.0"
  else .ok ()

/-- The state `NetworkCollector::new` constructs (the analyzer it builds is
determined by `config.analyzer`; the logging event handler has no
observable state). -/
structure NetworkCollector where
  config : CollectorConfig
  profiles : ProfileTable
  deriving DecidableEq, Repr

/-- `NetworkCollector::new`: validate the configuration first (mapping a
validation failure to a configuration error), then construct the collector
with an empty profile table. -/
def NetworkCollector.new (c : CollectorConfig) : Except String NetworkCollector :=
  match c.validate with
  | .error e => .error e
  | .ok _ => .ok { config := c, profiles := [] }

/-!  Aggregation-actor command handling
(`collector.rs`, `NetworkCollector::process_profiles`, command branch) and
API-state notifications (`huginn-api/src/state.rs`). -/

/-- Type of profile update; `state.rs`, `UpdateType`. -/
inductive UpdateType where
  | profileCreated
  | profileUpdated
  | profileRemoved
  | statsUpdated
  deriving DecidableEq, Repr

/-- Update event for real-time notifications; `state.rs`, `ProfileUpdate`. -/
structure ProfileUpdateMsg where
  update_type : UpdateType
  key : String
  profile : Option TrafficProfile
  timestamp : Nat
  deriving DecidableEq, Repr

/-- Commands that can be sent to the collector; `collector.rs`,
`CollectorCommand` (the `oneshot` reply channels become the reply values
below). -/
inductive CollectorCommand where
  | getProfiles
  | getProfile (key : String)
  | getProfileCount
  | clearProfiles
  deriving DecidableEq, Repr

/-- Replies the actor sends back on the command's `oneshot` channel. -/
inductive CommandReply where
  | profiles (t : ProfileTable)
  | profile (p : Option TrafficProfile)
  | count (n : Nat)
  deriving DecidableEq, Repr

/-- The command branch of the aggregation actor's `tokio::select!` loop
(`process_profiles`): answer reads from the current table and clear the
table on `ClearProfiles`.  The actor owns no snapshot cache and no update
broadcaster, so the list of notifications it emits is `[]` in every
branch. -/
def actor_handle_command (t : ProfileTable) (c : CollectorCommand) :
    ProfileTable × Option CommandReply × List ProfileUpdateMsg :=
  match c with
  | .getProfiles => (t, some (.profiles t), [])
  | .getProfile key => (t, some (.profile (tableGet t key)), [])
  | .getProfileCount => (t, some (.count t.length), [])
  | .clearProfiles => ([], none, [])

/-- `AppState::clear_profiles`: emit one `ProfileRemoved` notification per
key currently cached, then store the empty map.  Returns the new cache
contents and the notifications sent through the broadcast channel, in
order. -/
def AppState.clear_profiles (profiles : ProfileTable) (now : Nat) :
    ProfileTable × List ProfileUpdateMsg :=
  ([], profiles.map fun kv =>
    { update_type := .profileRemoved, key := kv.1, profile := none, timestamp := now })

/-- Statistics about traffic profiles; `state.rs`, `ProfileStats` (without
the generation timestamp, which is pure formatting). -/
structure ProfileStats where
  total_profiles : Nat
  tcp_profiles : Nat
  http_profiles : Nat
  tls_profiles : Nat
  complete_profiles : Nat
  deriving DecidableEq, Repr

/-- `AppState::get_stats`. -/
def get_stats (profiles : ProfileTable) : ProfileStats :=
  { total_profiles := profiles.length,
    tcp_profiles := (profiles.filter fun kv => kv.2.tcp.isSome).length,
    http_profiles := (profiles.filter fun kv => kv.2.http.isSome).length,
    tls_profiles := (profiles.filter fun kv => kv.2.tls.isSome).length,
    complete_profiles :=
      (profiles.filter fun kv => 1 ≤ kv.2.metadata.completeness).length }

/-!  WebSocket update loop (`huginn-api/src/websocket.rs`,
`handle_websocket`), restricted to the `updates_rx.recv()` branch of its
`tokio::select!`. -/

/-- Outcome of `broadcast::Receiver::recv()` as matched by the handler. -/
inductive RecvOutcome where
  | ok (update : ProfileUpdateMsg)
  | lagged (skipped : Nat)
  | closed
  deriving DecidableEq, Repr

/-- Messages the handler sends on this branch (`websocket.rs` JSON
payloads, keeping the fields the handler fills in). -/
inductive ServerMsg where
  | profileUpdate (update : ProfileUpdateMsg) (stats : ProfileStats) (timestamp : Nat)
  | catchUp (profiles : ProfileTable) (stats : ProfileStats)
      (skipped_updates : Nat) (timestamp : Nat)
  deriving DecidableEq, Repr

/-- The `update = updates_rx.recv()` branch of `handle_websocket`: on `Ok`
forward the single update, on `Lagged(n)` send one catch-up message built
from the current snapshot with `skipped_updates = n`, on `Closed` break the
loop.  Returns the messages sent to this subscriber and whether the loop
continues. -/
def handle_update_recv (snapshot : ProfileTable) (outcome : RecvOutcome) (now : Nat) :
    List ServerMsg × Bool :=
  match outcome with
  | .ok update => ([.profileUpdate update (get_stats snapshot) now], true)
  | .lagged skipped => ([.catchUp snapshot (get_stats snapshot) skipped now], true)
  | .closed => ([], false)

/-!  Specification-side definitions used to compare the code against the
spec's wording. -/

/-- The completeness formula as the spec states it (§3 invariant):
0.4·[any TCP data present: legacy `tcp`, `tcp_client` or `tcp_server`]
+ 0.3·[HTTP present] + 0.3·[TLS present]. -/
def completeness_spec (p : TrafficProfile) : Rat :=
  (if p.tcp.isSome || p.tcp_client.isSome || p.tcp_server.isSome then (0.4 : Rat) else 0)
    + (if p.http.isSome then (0.3 : Rat) else 0)
    + (if p.tls.isSome then (0.3 : Rat) else 0)

/-!  Helper lemmas about the table operations and the merge policy. -/

/-- A successful lookup exhibits a member of the table. -/
theorem tableGet_mem {t : ProfileTable} {k : String} {v : TrafficProfile}
    (h : tableGet t k = some v) : (k, v) ∈ t := by
  induction t with
  | nil => simp [tableGet] at h
  | cons kv rest ih =>
    obtain ⟨k', v'⟩ := kv
    by_cases hk : k' = k
    · simp [tableGet, hk] at h
      subst hk h
      exact List.mem_cons_self _ _
    · simp [tableGet, hk] at h
      exact List.mem_cons_of_mem _ (ih h)

/-- Members of an updated table are old members or the fresh binding. -/
theorem mem_tableUpdate {t : ProfileTable} {k : String} {v : TrafficProfile}
    {kv : String × TrafficProfile} (h : kv ∈ tableUpdate t k v) :
    kv ∈ t ∨ kv.2 = v := by
  induction t with
  | nil => simp [tableUpdate] at h
  | cons kv' rest ih =>
    obtain ⟨k', v'⟩ := kv'
    by_cases hk : k' = k
    · simp [tableUpdate, hk] at h
      rcases h with h | h
      · right; rw [h]
      · left; exact List.mem_cons_of_mem _ h
    · simp [tableUpdate, hk] at h
      rcases h with h | h
      · left; simp [h]
      · rcases ih h with h' | h'
        · left; exact List.mem_cons_of_mem _ h'
        · right; exact h'

/-- Updating a key rewrites exactly the value stored there. -/
theorem tableGet_tableUpdate_self (t : ProfileTable) (k : String) (v : TrafficProfile) :
    tableGet (tableUpdate t k v) k = (tableGet t k).map fun _ => v := by
  induction t with
  | nil => simp [tableGet, tableUpdate]
  | cons kv rest ih =>
    obtain ⟨k', v'⟩ := kv
    by_cases hk : k' = k
    · simp [tableGet, tableUpdate, hk]
    · simp [tableGet, tableUpdate, hk, ih]

/-- Appending a fresh binding makes it visible at its key. -/
theorem tableGet_append_self {t : ProfileTable} {k : String}
    (h : tableGet t k = none) (v : TrafficProfile) :
    tableGet (t ++ [(k, v)]) k = some v := by
  induction t with
  | nil => simp [tableGet]
  | cons kv rest ih =>
    obtain ⟨k', v'⟩ := kv
    by_cases hk : k' = k
    · simp [tableGet, hk] at h
    · simp [tableGet, hk] at h ⊢
      exact ih h

/-- `merge_profiles` adds the packet counters. -/
theorem merge_profiles_packet_count (e n : TrafficProfile) :
    (merge_profiles e n).metadata.packet_count
      = e.metadata.packet_count + n.metadata.packet_count := by
  simp only [merge_profiles]
  split_ifs <;> rfl

/-- The `tcp` field after a collector merge. -/
theorem merge_profiles_tcp (e n : TrafficProfile) :
    (merge_profiles e n).tcp = if n.tcp.isSome then n.tcp else e.tcp := by
  simp only [merge_profiles]
  split_ifs <;> rfl

/-- The `http` field after a collector merge. -/
theorem merge_profiles_http (e n : TrafficProfile) :
    (merge_profiles e n).http = if n.http.isSome then n.http else e.http := by
  simp only [merge_profiles]
  split_ifs <;> rfl

/-- The `tls` field after a collector merge. -/
theorem merge_profiles_tls (e n : TrafficProfile) :
    (merge_profiles e n).tls = if n.tls.isSome then n.tls else e.tls := by
  simp only [merge_profiles]
  split_ifs <;> rfl

/-- A collector merge never touches `tcp_client`. -/
theorem merge_profiles_tcp_client (e n : TrafficProfile) :
    (merge_profiles e n).tcp_client = e.tcp_client := by
  simp only [merge_profiles]
  split_ifs <;> rfl

/-- A collector merge never touches `tcp_server`. -/
theorem merge_profiles_tcp_server (e n : TrafficProfile) :
    (merge_profiles e n).tcp_server = e.tcp_server := by
  simp only [merge_profiles]
  split_ifs <;> rfl

/-- `merge_profiles` keeps a non-empty profile non-empty: category fields
are only ever overwritten with present data or left alone. -/
theorem merge_profiles_nonempty {e : TrafficProfile} (n : TrafficProfile)
    (h : e.is_empty = false) : (merge_profiles e n).is_empty = false := by
  simp only [TrafficProfile.is_empty, Bool.and_eq_false_iff] at h ⊢
  rcases h with ((((h | h) | h) | h) | h)
  · left; left; left; left
    rw [merge_profiles_tcp]
    split_ifs with hs
    · simpa using hs
    · exact h
  · left; left; left; right
    rw [merge_profiles_tcp_client]
    exact h
  · left; left; right
    rw [merge_profiles_tcp_server]
    exact h
  · left; right
    rw [merge_profiles_http]
    split_ifs with hs
    · simpa using hs
    · exact h
  · right
    rw [merge_profiles_tls]
    split_ifs with hs
    · simpa using hs
    · exact h

/-!  Concrete sample data used by witnesses and counterexamples. -/

/-- Sample converted TCP details. -/
def sampleTcpDetails : TcpDetails :=
  { version := "IPv4", initial_ttl := "Value*64", options_length := 0, mss := none,
    window_size := "Any", window_scale := none, options_layout := "", quirks := "",
    payload_class := "0" }

/-- Sample converted HTTP details. -/
def sampleHttpDetails : HttpDetails :=
  { version := "1", header_order := "", headers_absent := "", expected_software := "" }

/-- The client endpoint used in the sample events. -/
def epClient : NetworkEndpoint := { ip := "10.0.0.1", port := 40000 }

/-- The server endpoint used in the sample events. -/
def epServer : NetworkEndpoint := { ip := "93.184.216.34", port := 443 }

/-- An event carrying only a SYN sub-record with a quality-0.9 OS match. -/
def evSyn : FingerprintResult :=
  { syn := some { source := epClient,
                  os_matched := some { label := "Linux", quality := 0.9 },
                  sig_str := "syn-sig", sig_details := sampleTcpDetails, sig_distance := 6 },
    syn_ack := none, mtu := none, uptime := none, http_request := none,
    http_response := none, tls_client := none }

/-- An event carrying only a SYN-ACK sub-record (no OS match) whose
destination is the client. -/
def evSynAck : FingerprintResult :=
  { syn := none,
    syn_ack := some { source := epServer, destination := epClient, os_matched := none,
                      sig_str := "synack-sig", sig_details := sampleTcpDetails,
                      sig_distance := 0 },
    mtu := none, uptime := none, http_request := none, http_response := none,
    tls_client := none }

/-- An event carrying only a TLS client sub-record from the client. -/
def evTls : FingerprintResult :=
  { syn := none, syn_ack := none, mtu := none, uptime := none, http_request := none,
    http_response := none,
    tls_client := some { source := epClient, sig_version := "1.3", sni := none, alpn := none,
                         cipher_suites := [], extensions := [], signature_algorithms := [],
                         elliptic_curves := [], ja4_full := "j4", ja4_raw := "j4r",
                         ja4_original_full := "j4o", ja4_original_raw := "j4or" } }

/-- An event carrying only an HTTP request from the client, with the given
browser match. -/
def evHttpReq (browser : String) (q : Rat) : FingerprintResult :=
  { syn := none, syn_ack := none, mtu := none, uptime := none,
    http_request := some { source := epClient,
                           browser_matched := some { label := browser, quality := q },
                           lang := some "en", diagnosis := "none", sig_str := "req-sig",
                           sig_version := "1", horder := [], habsent := [],
                           expsw := "Chrome" },
    http_response := none, tls_client := none }

/-- An event carrying only an HTTP response whose destination is the
client. -/
def evHttpRes : FingerprintResult :=
  { syn := none, syn_ack := none, mtu := none, uptime := none, http_request := none,
    http_response := some { source := epServer, destination := epClient,
                            web_server_matched := some { label := "Apache", quality := 0.3 },
                            diagnosis := "none", sig_str := "res-sig", sig_version := "1",
                            horder := [], habsent := [], expsw := "Apache" },
    tls_client := none }

/-- An event with no sub-records at all. -/
def evEmpty : FingerprintResult :=
  { syn := none, syn_ack := none, mtu := none, uptime := none, http_request := none,
    http_response := none, tls_client := none }

/-!  Claim theorems. -/

/-- C5: the profile key is extracted by the priority chain SYN source, else
SYN-ACK destination, else HTTP-request source, else HTTP-response
destination, else TLS source, else MTU source, else uptime source, first
match winning; an event with none of these sub-records yields an error and
is discarded without touching the table. -/
theorem extract_primary_ip_priority (r : FingerprintResult) :
    (∀ s, r.syn = some s → extract_primary_ip r = .ok s.source.ip) ∧
    (∀ sa, r.syn = none → r.syn_ack = some sa →
      extract_primary_ip r = .ok sa.destination.ip) ∧
    (∀ hq, r.syn = none → r.syn_ack = none → r.http_request = some hq →
      extract_primary_ip r = .ok hq.source.ip) ∧
    (∀ hs, r.syn = none → r.syn_ack = none → r.http_request = none →
      r.http_response = some hs → extract_primary_ip r = .ok hs.destination.ip) ∧
    (∀ tc, r.syn = none → r.syn_ack = none → r.http_request = none →
      r.http_response = none → r.tls_client = some tc →
      extract_primary_ip r = .ok tc.source.ip) ∧
    (∀ m, r.syn = none → r.syn_ack = none → r.http_request = none →
      r.http_response = none → r.tls_client = none → r.mtu = some m →
      extract_primary_ip r = .ok m.source.ip) ∧
    (∀ u, r.syn = none → r.syn_ack = none → r.http_request = none →
      r.http_response = none → r.tls_client = none → r.mtu = none →
      r.uptime = some u → extract_primary_ip r = .ok u.source.ip) ∧
    (r.syn = none → r.syn_ack = none → r.http_request = none →
      r.http_response = none → r.tls_client = none → r.mtu = none →
      r.uptime = none →
      extract_primary_ip r = .error "No valid IP found in result" ∧
      ∀ cfg t now, process_fingerprint_result cfg t r now = t) := by
  refine ⟨?_, ?_, ?_, ?_, ?_, ?_, ?_, ?_⟩
  · intro s h
    simp [extract_primary_ip, h]
  · intro sa h1 h2
    simp [extract_primary_ip, h1, h2]
  · intro hq h1 h2 h3
    simp [extract_primary_ip, h1, h2, h3]
  · intro hs h1 h2 h3 h4
    simp [extract_primary_ip, h1, h2, h3, h4]
  · intro tc h1 h2 h3 h4 h5
    simp [extract_primary_ip, h1, h2, h3, h4, h5]
  · intro m h1 h2 h3 h4 h5 h6
    simp [extract_primary_ip, h1, h2, h3, h4, h5, h6]
  · intro u h1 h2 h3 h4 h5 h6 h7
    simp [extract_primary_ip, h1, h2, h3, h4, h5, h6, h7]
  · intro h1 h2 h3 h4 h5 h6 h7
    constructor
    · simp [extract_primary_ip, h1, h2, h3, h4, h5, h6, h7]
    · intro cfg t now
      simp [process_fingerprint_result, analyze, analyze_build, extract_primary_ip,
        h1, h2, h3, h4, h5, h6, h7]

/-- C5 witness: the sub-record-free event produces the no-usable-IP error
and leaves the table unchanged. -/
theorem extract_primary_ip_priority_witness :
    extract_primary_ip evEmpty = .error "No valid IP found in result" ∧
    process_fingerprint_result AnalyzerConfig.default [] evEmpty 0 = [] := by
  obtain ⟨-, -, -, -, -, -, -, h⟩ := extract_primary_ip_priority evEmpty
  obtain ⟨he, hp⟩ := h rfl rfl rfl rfl rfl rfl rfl
  exact ⟨he, hp AnalyzerConfig.default [] 0⟩

/-- Closed form of the bridge loop: it forwards the longest prefix the
consumer accepts, returns `Ok` exactly when the input disconnects first,
and otherwise stops at the failing send with a channel error. -/
theorem start_blocking_eq (inputs : List FingerprintResult) (cap : Nat) :
    start_blocking inputs cap =
      (inputs.take cap,
        if inputs.length ≤ cap then .ok ()
        else .error (.channel "Failed to send to async channel")) := by
  induction inputs generalizing cap with
  | nil => simp [start_blocking]
  | cons e rest ih =>
    cases cap with
    | zero => simp [start_blocking]
    | succ n => simp [start_blocking, ih n, Nat.succ_le_succ_iff]

/-- C6: the bridge loop forwards every dequeued event in order: the
forwarded events are exactly the prefix accepted by the consumer, an `Ok`
result means every input event was forwarded (input disconnect is a clean
stop), and a channel error means the bridge terminated at the first failed
send, having forwarded everything dequeued before it — it never skips an
event and continues. -/
theorem bridge_forwards_or_terminates (inputs : List FingerprintResult) (cap : Nat) :
    (start_blocking inputs cap).1 = inputs.take cap ∧
    ((start_blocking inputs cap).2 = .ok () → (start_blocking inputs cap).1 = inputs) ∧
    (∀ e, (start_blocking inputs cap).2 = .error e →
      (start_blocking inputs cap).1 = inputs.take cap ∧ cap < inputs.length) ∧
    (inputs.length ≤ cap → (start_blocking inputs cap).2 = .ok ()) := by
  rw [start_blocking_eq]
  by_cases h : inputs.length ≤ cap
  · refine ⟨rfl, ?_, ?_, ?_⟩
    · intro _
      simp [List.take_of_length_le h]
    · intro e he
      simp [h] at he
    · intro _
      simp [h]
  · refine ⟨rfl, ?_, ?_, ?_⟩
    · intro hok
      simp [h] at hok
    · intro e _
      exact ⟨rfl, Nat.lt_of_not_le h⟩
    · intro h'
      exact absurd h' h

/-- C6 witness: three queued events with a consumer that accepts two sends;
the bridge forwards the first two and stops with a channel error. -/
theorem bridge_forwards_or_terminates_witness :
    (start_blocking [evEmpty, evSyn, evTls] 2).1 = [evEmpty, evSyn] ∧ 2 < 3 := by
  obtain ⟨-, -, herr, -⟩ := bridge_forwards_or_terminates [evEmpty, evSyn, evTls] 2
  obtain ⟨h1, h2⟩ := herr (.channel "Failed to send to async channel")
    (by simp [start_blocking_eq])
  refine ⟨?_, h2⟩
  rw [h1]
  simp

/-- C8: when the broadcast receiver reports that a subscriber lagged by
`n` messages, the websocket handler sends that subscriber exactly one
catch-up message carrying the full current snapshot and
`skipped_updates = n`, and keeps the loop alive, instead of replaying the
missed deltas. -/
theorem websocket_lagged_catch_up (snapshot : ProfileTable) (n : Nat) (now : Nat) :
    handle_update_recv snapshot (.lagged n) now
      = ([ServerMsg.catchUp snapshot (get_stats snapshot) n now], true) ∧
    (handle_update_recv snapshot (.lagged n) now).1.length = 1 := by
  exact ⟨rfl, rfl⟩

/-- C9: collector construction fails with a configuration error exactly
when the interface name is empty, the capture buffer size is zero, the
channel buffer size is zero, or the minimum-confidence threshold lies
outside [0, 1]; every other configuration constructs successfully. -/
theorem collector_new_valid_iff (c : CollectorConfig) :
    (NetworkCollector.new c).isOk = false ↔
      (c.interface.isEmpty = true ∨ c.buffer_size = 0 ∨ c.channel_buffer_size = 0 ∨
        c.analyzer.min_quality < 0 ∨ 1 < c.analyzer.min_quality) := by
  by_cases h1 : c.interface.isEmpty
  · simp [NetworkCollector.new, CollectorConfig.validate, h1, Except.isOk, Except.toBool]
  · by_cases h2 : c.buffer_size = 0
    · simp [NetworkCollector.new, CollectorConfig.validate, h1, h2, Except.isOk, Except.toBool]
    · by_cases h3 : c.channel_buffer_size = 0
      · simp [NetworkCollector.new, CollectorConfig.validate, h1, h2, h3, Except.isOk, Except.toBool]
      · by_cases h4 : c.analyzer.min_quality < 0
        · simp [NetworkCollector.new, CollectorConfig.validate, h1, h2, h3, h4, Except.isOk, Except.toBool]
        · by_cases h5 : 1 < c.analyzer.min_quality
          · simp [NetworkCollector.new, CollectorConfig.validate, h1, h2, h3, h4, h5,
              Except.isOk, Except.toBool]
          · simp [NetworkCollector.new, CollectorConfig.validate, h1, h2, h3, h4, h5,
              Except.isOk, Except.toBool]

/-- C10: an event whose only analysis-bearing sub-record is an HTTP
response (MTU and uptime data may accompany it) stores the raw response
data in `raw_data.http_response` but never sets the profile's `http`
analysis field; the built profile is empty with completeness 0, so
`analyze` returns no profile and the event leaves the table unchanged. -/
theorem http_response_only_no_insertion (cfg : AnalyzerConfig)
    (hres : HttpResponseOutput) (mtu : Option MTUOutput) (uptime : Option UptimeOutput)
    (now : Nat) (t : ProfileTable) :
    ((analyze_build cfg
        { syn := none, syn_ack := none, mtu := mtu, uptime := uptime,
          http_request := none, http_response := some hres, tls_client := none } now).map
      fun p => (p.raw_data.http_response, p.http, p.is_empty, p.metadata.completeness,
        p.metadata.packet_count))
      = some (some (process_http_response hres), none, true, 0, 0) ∧
    analyze cfg
      { syn := none, syn_ack := none, mtu := mtu, uptime := uptime,
        http_request := none, http_response := some hres, tls_client := none } now = none ∧
    process_fingerprint_result cfg t
      { syn := none, syn_ack := none, mtu := mtu, uptime := uptime,
        http_request := none, http_response := some hres, tls_client := none } now = t := by
  rcases mtu with _ | m <;> rcases uptime with _ | u <;>
    simp [process_fingerprint_result, analyze, analyze_build, extract_primary_ip,
      TrafficProfile.new, RawFingerprintData.default, TrafficProfile.is_empty]

/-- The analyzer only ever returns profiles carrying analysis data. -/
theorem analyze_some_nonempty {cfg : AnalyzerConfig} {r : FingerprintResult} {now : Nat}
    {p : TrafficProfile} (h : analyze cfg r now = some p) : p.is_empty = false := by
  unfold analyze at h
  cases hb : analyze_build cfg r now with
  | none => rw [hb] at h; exact absurd h (by simp)
  | some q =>
    rw [hb] at h
    by_cases he : q.is_empty
    · simp [he] at h
    · simp [he] at h
      rw [← h]
      exact Bool.eq_false_iff.mpr he

/-- C4: profiles without category analysis data are never inserted: the
analyzer returns no profile for such events, and every profile in a table
produced by the aggregation step from a table of non-empty profiles is
itself non-empty (merging preserves non-emptiness, and fresh insertions
come from non-empty analyzer output). -/
theorem no_empty_profile_in_table :
    (∀ cfg r now p, analyze cfg r now = some p → p.is_empty = false) ∧
    (∀ cfg (t : ProfileTable) r now,
      (∀ kv ∈ t, kv.2.is_empty = false) →
      ∀ kv ∈ process_fingerprint_result cfg t r now, kv.2.is_empty = false) := by
  constructor
  · intro cfg r now p h
    exact analyze_some_nonempty h
  · intro cfg t r now hinv kv hkv
    unfold process_fingerprint_result at hkv
    cases ha : analyze cfg r now with
    | none =>
      rw [ha] at hkv
      exact hinv kv hkv
    | some p =>
      rw [ha] at hkv
      dsimp only at hkv
      have hp : p.is_empty = false := analyze_some_nonempty ha
      cases hg : tableGet t (p.ip ++ ":" ++ toString p.port) with
      | some existing =>
        rw [hg] at hkv
        rcases mem_tableUpdate hkv with h' | h'
        · exact hinv kv h'
        · rw [h']
          exact merge_profiles_nonempty p (hinv _ (tableGet_mem hg))
      | none =>
        rw [hg] at hkv
        rcases List.mem_append.mp hkv with h' | h'
        · exact hinv kv h'
        · simp at h'
          rw [h']
          exact hp

/-- C4 witness: processing the SYN-ACK sample event into the empty table
yields a table whose (single) entry is non-empty. -/
theorem no_empty_profile_in_table_witness :
    ((tableGet (process_fingerprint_result AnalyzerConfig.default [] evSynAck 0)
        "10.0.0.1:0").map TrafficProfile.is_empty) = some false := by
  have hmain := no_empty_profile_in_table.2 AnalyzerConfig.default [] evSynAck 0
    (by intro kv hkv; cases hkv)
  cases htg : tableGet (process_fingerprint_result AnalyzerConfig.default [] evSynAck 0)
      "10.0.0.1:0" with
  | none =>
    exact absurd htg (by
      norm_num +decide [process_fingerprint_result, analyze, analyze_build,
        extract_primary_ip, TrafficProfile.new, TrafficProfile.update_tcp_server,
        TrafficProfile.update_metadata, TrafficProfile.is_empty, analyze_tcp_syn_ack,
        process_syn_ack_packet, RawFingerprintData.default, AnalyzerConfig.default,
        tableGet, evSynAck, epClient, epServer, sampleTcpDetails])
  | some p =>
    exact congrArg some (hmain _ (tableGet_mem htg))

/-- C1 counterexample: through the aggregation path, an HTTP fragment with
confidence 0.3 arriving after a stored confidence 0.5 replaces the stored
browser label and confidence wholesale ("Edge", 0.3) instead of leaving
("Chrome", 0.5) in place as the claim states. -/
theorem http_merge_aggregation_counterexample :
    ((tableGet (process_events AnalyzerConfig.default []
        [evHttpReq "Chrome" 0.5, evHttpReq "Edge" 0.3] 0) "10.0.0.1:0").bind
      (fun p => p.http)).map (fun h => (h.browser, h.quality))
      = some ("Edge", 0.3) ∧
    (("Edge", (0.3 : Rat)) = ("Chrome", (0.5 : Rat)) → False) := by
  constructor
  · norm_num +decide [process_events, process_fingerprint_result, analyze, analyze_build,
      extract_primary_ip, TrafficProfile.new, TrafficProfile.update_http,
      TrafficProfile.update_metadata, TrafficProfile.is_empty, analyze_http_request,
      process_http_request, extract_header_value_from_horder, merge_profiles,
      tableGet, tableUpdate, RawFingerprintData.default, AnalyzerConfig.default,
      evHttpReq, epClient, List.foldl]
  · intro h
    have := congrArg Prod.fst h
    simp at this
  
/-- C1 amended: the confidence-gated rule holds at the profile-level merge
(`TrafficProfile::update_http`): a non-empty request or response sub-record
always replaces the stored one, and the scalar fields change exactly when
the fragment's confidence is strictly greater.  Across events through the
aggregation path, however, `NetworkCollector::merge_profiles` replaces the
stored HTTP analysis wholesale whenever the incoming profile carries one,
regardless of confidence. -/
theorem http_merge_policy :
    (∀ (p : TrafficProfile) (ex frag : HttpAnalysis) (now : Nat), p.http = some ex →
      (frag.request.isSome = true →
        ((p.update_http frag now).http.map HttpAnalysis.request) = some frag.request) ∧
      (frag.request = none →
        ((p.update_http frag now).http.map HttpAnalysis.request) = some ex.request) ∧
      (frag.response.isSome = true →
        ((p.update_http frag now).http.map HttpAnalysis.response) = some frag.response) ∧
      (frag.response = none →
        ((p.update_http frag now).http.map HttpAnalysis.response) = some ex.response) ∧
      (ex.quality < frag.quality →
        ((p.update_http frag now).http.map fun h =>
            (h.browser, h.quality, h.language, h.diagnosis, h.signature, h.details))
          = some (frag.browser, frag.quality, frag.language, frag.diagnosis,
              frag.signature, frag.details)) ∧
      (¬ ex.quality < frag.quality →
        ((p.update_http frag now).http.map fun h =>
            (h.browser, h.quality, h.language, h.diagnosis, h.signature, h.details))
          = some (ex.browser, ex.quality, ex.language, ex.diagnosis,
              ex.signature, ex.details))) ∧
    (∀ e n : TrafficProfile, n.http.isSome = true → (merge_profiles e n).http = n.http) := by
  constructor
  · intro p ex frag now hex
    refine ⟨?_, ?_, ?_, ?_, ?_, ?_⟩ <;>
      intro h <;>
        simp only [TrafficProfile.update_http, TrafficProfile.update_metadata, hex] <;>
          split_ifs <;> simp_all [gt_iff_lt]
  · intro e n h
    rw [merge_profiles_http, if_pos h]

/-- Sample stored HTTP analysis with confidence 0.5 and a request
sub-record. -/
def httpChrome : HttpAnalysis :=
  { browser := "Chrome", quality := 0.5, language := some "en", diagnosis := "none",
    signature := "sig-chrome", details := sampleHttpDetails,
    request := some { user_agent := some "UA", accept := none, accept_language := none,
                      accept_encoding := none, connection := none, method := some "GET",
                      host := none, signature := "req-sig", quality := 0.5 },
    response := none }

/-- Sample incoming HTTP fragment with confidence 0.3 and a response
sub-record. -/
def httpEdge : HttpAnalysis :=
  { browser := "Edge", quality := 0.3, language := none, diagnosis := "none",
    signature := "sig-edge", details := sampleHttpDetails,
    request := none,
    response := some { server := some "S", content_type := none, content_length := none,
                       set_cookie := none, cache_control := none, status := some "200",
                       signature := "res-sig", quality := 0.3 } }

/-- A profile storing the confidence-0.5 HTTP analysis. -/
def profChrome : TrafficProfile :=
  { TrafficProfile.new "10.0.0.1" 0 0 with http := some httpChrome }

/-- A profile carrying the confidence-0.3 HTTP fragment. -/
def profEdge : TrafficProfile :=
  { TrafficProfile.new "10.0.0.1" 0 0 with http := some httpEdge }

/-- C1 witness: at the profile level the 0.3-confidence response fragment
replaces the stored response sub-record but leaves the 0.5-confidence
scalars in place; through `merge_profiles` the same fragment replaces the
stored analysis wholesale. -/
theorem http_merge_policy_witness :
    ((profChrome.update_http httpEdge 1).http.map fun h =>
        (h.browser, h.quality, h.language, h.diagnosis, h.signature, h.details))
      = some (httpChrome.browser, httpChrome.quality, httpChrome.language,
          httpChrome.diagnosis, httpChrome.signature, httpChrome.details) ∧
    ((profChrome.update_http httpEdge 1).http.map HttpAnalysis.response)
      = some httpEdge.response ∧
    (merge_profiles profChrome profEdge).http = profEdge.http := by
  obtain ⟨hupd, hmerge⟩ := http_merge_policy
  obtain ⟨-, -, hresp, -, -, hkeep⟩ := hupd profChrome httpChrome httpEdge 1 rfl
  refine ⟨hkeep ?_, hresp rfl, hmerge profChrome profEdge rfl⟩
  norm_num [httpChrome, httpEdge]

/-- C2 counterexample: a profile built from a SYN-ACK-only event (so only
`tcp_server` is set) merged with a TLS-only event ends with completeness
0.3, while the claimed formula — counting `tcp_client`/`tcp_server` as TCP
data — gives 0.7. -/
theorem completeness_formula_counterexample :
    ((tableGet (process_events AnalyzerConfig.default [] [evSynAck, evTls] 0)
        "10.0.0.1:0").map fun p =>
      (p.tcp_server.isSome, p.tls.isSome, p.metadata.completeness, completeness_spec p))
      = some (true, true, 0.3, 0.7) ∧
    ((0.3 : Rat) = 0.7 → False) := by
  constructor
  · norm_num +decide [process_events, process_fingerprint_result, analyze, analyze_build,
      extract_primary_ip, TrafficProfile.new, TrafficProfile.update_tcp_server,
      TrafficProfile.update_tls, TrafficProfile.update_metadata, TrafficProfile.is_empty,
      analyze_tcp_syn_ack, analyze_tls_client, process_syn_ack_packet, process_tls_client,
      merge_profiles, completeness_spec, tableGet, tableUpdate,
      RawFingerprintData.default, AnalyzerConfig.default, evSynAck, evTls,
      epClient, epServer, sampleTcpDetails, List.foldl]
  · intro h
    norm_num at h

/-- Completeness stored by `update_metadata` is the spec formula of the
profile it is applied to. -/
theorem update_metadata_completeness (p : TrafficProfile) (now : Nat) :
    (p.update_metadata now).metadata.completeness = completeness_spec p := by
  simp [TrafficProfile.update_metadata, completeness_spec]

/-- `update_metadata` leaves the category fields, and hence the spec
formula, unchanged. -/
theorem completeness_spec_update_metadata (p : TrafficProfile) (now : Nat) :
    completeness_spec (p.update_metadata now) = completeness_spec p := by
  simp [TrafficProfile.update_metadata, completeness_spec]

/-- C2 amended: every profile-level mutation (`new` and the five
`update_*` operations of `TrafficProfile`) recomputes completeness as the
spec formula 0.4·[tcp ∨ tcp_client ∨ tcp_server] + 0.3·[http] + 0.3·[tls];
the collector-level `merge_profiles`, however, recomputes it counting only
the legacy `tcp` field as TCP data, ignoring `tcp_client`/`tcp_server`. -/
theorem completeness_recomputed :
    (∀ (ip : String) (port now : Nat), (TrafficProfile.new ip port now).metadata.completeness
      = completeness_spec (TrafficProfile.new ip port now)) ∧
    (∀ (p : TrafficProfile) (a : TcpAnalysis) (now : Nat),
      (p.update_tcp a now).metadata.completeness
        = completeness_spec (p.update_tcp a now) ∧
      (p.update_tcp_client a now).metadata.completeness
        = completeness_spec (p.update_tcp_client a now) ∧
      (p.update_tcp_server a now).metadata.completeness
        = completeness_spec (p.update_tcp_server a now)) ∧
    (∀ (p : TrafficProfile) (h : HttpAnalysis) (now : Nat),
      (p.update_http h now).metadata.completeness
        = completeness_spec (p.update_http h now)) ∧
    (∀ (p : TrafficProfile) (a : TlsAnalysis) (now : Nat),
      (p.update_tls a now).metadata.completeness
        = completeness_spec (p.update_tls a now)) ∧
    (∀ e n : TrafficProfile, (merge_profiles e n).metadata.completeness
      = (if (merge_profiles e n).tcp.isSome then (0.4 : Rat) else 0)
        + (if (merge_profiles e n).http.isSome then (0.3 : Rat) else 0)
        + (if (merge_profiles e n).tls.isSome then (0.3 : Rat) else 0)) := by
  refine ⟨?_, ?_, ?_, ?_, ?_⟩
  · intro ip port now
    simp [TrafficProfile.new, completeness_spec]
  · intro p a now
    refine ⟨?_, ?_, ?_⟩ <;>
      simp [TrafficProfile.update_tcp, TrafficProfile.update_tcp_client,
        TrafficProfile.update_tcp_server, TrafficProfile.update_metadata,
        completeness_spec]
  · intro p h now
    cases hp : p.http with
    | none =>
      simp [TrafficProfile.update_http, hp, TrafficProfile.update_metadata,
        completeness_spec]
    | some ex =>
      simp only [TrafficProfile.update_http, hp]
      split_ifs <;> simp [TrafficProfile.update_metadata, completeness_spec]
  · intro p a now
    simp [TrafficProfile.update_tls, TrafficProfile.update_metadata, completeness_spec]
  · intro e n
    rw [merge_profiles_tcp, merge_profiles_http, merge_profiles_tls]
    simp only [merge_profiles]
    split_ifs <;> rfl

/-- Sample non-empty profile (TLS analysis only) used for table-level
examples. -/
def profTls : TrafficProfile :=
  (TrafficProfile.new "10.0.0.1" 0 0).update_tls
    { ja4 := "j4", ja4_raw := "j4r", ja4_original := "j4o", ja4_original_raw := "j4or",
      details := { version := "1.3", sni := none, alpn := none, cipher_suites := [],
                   extensions := [], signature_algorithms := [], elliptic_curves := [] } } 0

/-- C7 counterexample: the aggregation actor's clear-all command empties a
one-entry table while emitting zero notifications, not one `Removed`
notification per present key as the claim states — the actor owns no
broadcaster at all. -/
theorem actor_clear_no_notifications_counterexample :
    (actor_handle_command [("10.0.0.1:0", profTls)] .clearProfiles).1 = [] ∧
    (actor_handle_command [("10.0.0.1:0", profTls)] .clearProfiles).2.2.length = 0 ∧
    (((0 : Nat) = [("10.0.0.1:0", profTls)].length) → False) := by
  refine ⟨rfl, rfl, ?_⟩
  intro h
  simp at h

/-- C7 amended: the API layer's `AppState::clear_profiles` empties the
cached table and emits exactly one `ProfileRemoved` notification per key
that was present (in table order); the aggregation actor's own command
handling mutates its table but emits no notifications and updates no
snapshot cache — its clear-all branch only clears the map. -/
theorem clear_profiles_notifications :
    (∀ (t : ProfileTable) (now : Nat), AppState.clear_profiles t now =
      ([], t.map fun kv =>
        { update_type := UpdateType.profileRemoved, key := kv.1, profile := none,
          timestamp := now })) ∧
    (∀ t : ProfileTable, actor_handle_command t .clearProfiles = ([], none, [])) := by
  exact ⟨fun t now => rfl, fun t => rfl⟩

/-- An event carrying exactly one applied fragment that is not a SYN: a
SYN-ACK, HTTP-request or TLS sub-record alone, enabled by the
configuration and (where a threshold applies) at or above the minimum
confidence, with every other sub-record absent. -/
def single_applied_non_syn_fragment (cfg : AnalyzerConfig) (r : FingerprintResult) : Prop :=
  r.syn = none ∧ r.http_response = none ∧ r.mtu = none ∧ r.uptime = none ∧
  ((∃ sa, r.syn_ack = some sa ∧ r.http_request = none ∧ r.tls_client = none ∧
      cfg.enable_tcp = true ∧
      cfg.min_quality ≤ (sa.os_matched.map MatchedLabel.quality).getD 0) ∨
   (∃ hq, r.http_request = some hq ∧ r.syn_ack = none ∧ r.tls_client = none ∧
      cfg.enable_http = true ∧
      cfg.min_quality ≤ (hq.browser_matched.map MatchedLabel.quality).getD 0) ∨
   (∃ tc, r.tls_client = some tc ∧ r.syn_ack = none ∧ r.http_request = none ∧
      cfg.enable_tls = true))

/-- A single applied non-SYN fragment yields a profile for the extracted
IP at port 0 with packet counter exactly 1. -/
theorem analyze_single_applied {cfg : AnalyzerConfig} {r : FingerprintResult}
    {ip : String} (now : Nat) (h : single_applied_non_syn_fragment cfg r)
    (hip : extract_primary_ip r = .ok ip) :
    ((analyze cfg r now).map fun q => (q.ip, q.port, q.metadata.packet_count))
      = some (ip, 0, 1) := by
  obtain ⟨hsyn, hres, hmtu, hup, hcase⟩ := h
  rcases hcase with ⟨sa, hsa, hhq, htc, hen, hq⟩ | ⟨hq', hhq, hsa, htc, hen, hq⟩ |
    ⟨tc, htc, hsa, hhq, hen⟩
  · have hq2 : ¬ ((sa.os_matched.map MatchedLabel.quality).getD 0 < cfg.min_quality) :=
      not_lt.mpr hq
    simp [analyze, analyze_build, hip, hsyn, hres, hmtu, hup, hsa, hhq, htc, hen, hq2,
      analyze_tcp_syn_ack, TrafficProfile.new, TrafficProfile.update_tcp_server,
      TrafficProfile.update_metadata, TrafficProfile.is_empty]
  · have hq2 : ¬ ((hq'.browser_matched.map MatchedLabel.quality).getD 0 < cfg.min_quality) :=
      not_lt.mpr hq
    simp [analyze, analyze_build, hip, hsyn, hres, hmtu, hup, hsa, hhq, htc, hen, hq2,
      analyze_http_request, TrafficProfile.new, TrafficProfile.update_http,
      TrafficProfile.update_metadata, TrafficProfile.is_empty]
  · simp [analyze, analyze_build, hip, hsyn, hres, hmtu, hup, hsa, hhq, htc, hen,
      analyze_tls_client, TrafficProfile.new, TrafficProfile.update_tls,
      TrafficProfile.update_metadata, TrafficProfile.is_empty]

/-- Folding single applied non-SYN fragments for one IP over a table that
already holds that IP's profile adds exactly one to the packet counter per
event. -/
theorem process_events_count {cfg : AnalyzerConfig} {ip : String} {now : Nat} :
    ∀ (evs : List FingerprintResult) (t : ProfileTable) (c : Nat),
    (∀ r ∈ evs, single_applied_non_syn_fragment cfg r ∧ extract_primary_ip r = .ok ip) →
    ((tableGet t (ip ++ ":" ++ toString (0 : Nat))).map
      fun p => p.metadata.packet_count) = some c →
    ((tableGet (process_events cfg t evs now) (ip ++ ":" ++ toString (0 : Nat))).map
      fun p => p.metadata.packet_count) = some (c + evs.length) := by
  intro evs
  induction evs with
  | nil =>
    intro t c _ hc
    simpa [process_events] using hc
  | cons r rest ih =>
    intro t c hall hc
    obtain ⟨hr, hrest⟩ := List.forall_mem_cons.mp hall
    have hone := @analyze_single_applied cfg r ip now hr.1 hr.2
    cases ha : analyze cfg r now with
    | none =>
      rw [ha] at hone
      exact absurd hone (by simp)
    | some q =>
      rw [ha] at hone
      simp only [Option.map_some', Option.some.injEq, Prod.mk.injEq] at hone
      obtain ⟨hqip, hqport, hqcount⟩ := hone
      cases hg : tableGet t (ip ++ ":" ++ toString (0 : Nat)) with
      | none =>
        rw [hg] at hc
        exact absurd hc (by simp)
      | some p =>
        rw [hg] at hc
        simp only [Option.map_some', Option.some.injEq] at hc
        have hstep : process_fingerprint_result cfg t r now
            = tableUpdate t (ip ++ ":" ++ toString (0 : Nat)) (merge_profiles p q) := by
          unfold process_fingerprint_result
          rw [ha]
          dsimp only
          rw [hqip, hqport, hg]
        have hstart : ((tableGet
            (tableUpdate t (ip ++ ":" ++ toString (0 : Nat)) (merge_profiles p q))
            (ip ++ ":" ++ toString (0 : Nat))).map
              fun p' => p'.metadata.packet_count) = some (c + 1) := by
          rw [tableGet_tableUpdate_self, hg]
          simp [merge_profiles_packet_count, hc, hqcount]
        have hrec := ih (tableUpdate t (ip ++ ":" ++ toString (0 : Nat))
          (merge_profiles p q)) (c + 1) hrest hstart
        calc ((tableGet (process_events cfg t (r :: rest) now)
              (ip ++ ":" ++ toString (0 : Nat))).map fun p' => p'.metadata.packet_count)
            = ((tableGet (process_events cfg
                (tableUpdate t (ip ++ ":" ++ toString (0 : Nat)) (merge_profiles p q))
                rest now) (ip ++ ":" ++ toString (0 : Nat))).map
                  fun p' => p'.metadata.packet_count) := by
              rw [show process_events cfg t (r :: rest) now
                  = process_events cfg (process_fingerprint_result cfg t r now) rest now
                  from rfl, hstep]
          _ = some (c + 1 + rest.length) := hrec
          _ = some (c + (r :: rest).length) := by
              simp only [List.length_cons, Option.some.injEq]
              omega

/-- C3 amended: merging a sequence of events each carrying exactly one
applied non-SYN fragment for the same IP yields `packet_count = N` (one
increment per applied fragment); but a SYN fragment is applied twice —
once as `tcp_client` and once as the legacy `tcp` field — so a SYN-only
event contributes 2 to the counter, not 1. -/
theorem packet_count_per_fragment (cfg : AnalyzerConfig) (now : Nat) :
    (∀ (evs : List FingerprintResult) (ip : String), evs ≠ [] →
      (∀ r ∈ evs, single_applied_non_syn_fragment cfg r ∧ extract_primary_ip r = .ok ip) →
      ((tableGet (process_events cfg [] evs now) (ip ++ ":" ++ toString (0 : Nat))).map
        fun p => p.metadata.packet_count) = some evs.length) ∧
    (∀ (r : FingerprintResult) (ip : String), single_applied_non_syn_fragment cfg r →
      extract_primary_ip r = .ok ip →
      ((analyze cfg r now).map fun q => q.metadata.packet_count) = some 1) ∧
    (∀ (s : SynTCPOutput) (rr : FingerprintResult), rr.syn = some s → rr.syn_ack = none →
      rr.http_request = none → rr.http_response = none → rr.tls_client = none →
      rr.mtu = none → rr.uptime = none → cfg.enable_tcp = true →
      cfg.min_quality ≤ (s.os_matched.map MatchedLabel.quality).getD 0 →
      ((analyze cfg rr now).map fun q => q.metadata.packet_count) = some 2) := by
  refine ⟨?_, ?_, ?_⟩
  · intro evs ip hne hall
    cases evs with
    | nil => exact absurd rfl hne
    | cons e rest =>
      obtain ⟨he, hrest⟩ := List.forall_mem_cons.mp hall
      have hone := @analyze_single_applied cfg e ip now he.1 he.2
      cases ha : analyze cfg e now with
      | none =>
        rw [ha] at hone
        exact absurd hone (by simp)
      | some q =>
        rw [ha] at hone
        simp only [Option.map_some', Option.some.injEq, Prod.mk.injEq] at hone
        obtain ⟨hqip, hqport, hqcount⟩ := hone
        have hstep : process_fingerprint_result cfg [] e now
            = [(ip ++ ":" ++ toString (0 : Nat), q)] := by
          unfold process_fingerprint_result
          rw [ha]
          dsimp only
          rw [hqip, hqport]
          simp [tableGet]
        have hstart : ((tableGet [(ip ++ ":" ++ toString (0 : Nat), q)]
            (ip ++ ":" ++ toString (0 : Nat))).map
              fun p' => p'.metadata.packet_count) = some 1 := by
          simp [tableGet, hqcount]
        have hrec := @process_events_count cfg ip now rest
          [(ip ++ ":" ++ toString (0 : Nat), q)] 1 hrest hstart
        calc ((tableGet (process_events cfg [] (e :: rest) now)
              (ip ++ ":" ++ toString (0 : Nat))).map fun p' => p'.metadata.packet_count)
            = ((tableGet (process_events cfg [(ip ++ ":" ++ toString (0 : Nat), q)]
                rest now) (ip ++ ":" ++ toString (0 : Nat))).map
                  fun p' => p'.metadata.packet_count) := by
              rw [show process_events cfg [] (e :: rest) now
                  = process_events cfg (process_fingerprint_result cfg [] e now) rest now
                  from rfl, hstep]
          _ = some (1 + rest.length) := hrec
          _ = some ((e :: rest).length) := by
              simp only [List.length_cons, Option.some.injEq]
              omega
  · intro r ip hsingle hip
    have hone := @analyze_single_applied cfg r ip now hsingle hip
    cases ha : analyze cfg r now with
    | none =>
      rw [ha] at hone
      exact absurd hone (by simp)
    | some q =>
      rw [ha] at hone
      simp only [Option.map_some', Option.some.injEq, Prod.mk.injEq] at hone
      simp [hone.2.2]
  · intro s rr h1 h2 h3 h4 h5 h6 h7 hen hq
    have hq2 : ¬ ((s.os_matched.map MatchedLabel.quality).getD 0 < cfg.min_quality) :=
      not_lt.mpr hq
    simp [analyze, analyze_build, extract_primary_ip, h1, h2, h3, h4, h5, h6, h7, hen, hq2,
      analyze_tcp_syn, TrafficProfile.new, TrafficProfile.update_tcp,
      TrafficProfile.update_tcp_client, TrafficProfile.update_metadata,
      TrafficProfile.is_empty]

/-- C3 counterexample: an event carrying exactly one applied fragment — a
SYN with a 0.9-quality OS match — merged into the empty table leaves
`packet_count = 2`, not 1: the SYN is applied both as `tcp_client` and as
the legacy `tcp` field, and each application increments the counter. -/
theorem packet_count_syn_counterexample :
    ((tableGet (process_events AnalyzerConfig.default [] [evSyn] 0) "10.0.0.1:0").map
      fun p => p.metadata.packet_count) = some 2 ∧ (((2 : Nat) = 1) → False) := by
  constructor
  · norm_num +decide [process_events, process_fingerprint_result, analyze, analyze_build,
      extract_primary_ip, TrafficProfile.new, TrafficProfile.update_tcp,
      TrafficProfile.update_tcp_client, TrafficProfile.update_metadata,
      TrafficProfile.is_empty, analyze_tcp_syn, process_syn_packet,
      RawFingerprintData.default, AnalyzerConfig.default, tableGet, evSyn, epClient,
      sampleTcpDetails, List.foldl]
  · intro h
    simp at h

/-- C3 witness: one SYN-ACK-only event yields `packet_count = 1` through
the aggregation path, while the SYN-only sample event yields 2 directly
from the analyzer. -/
theorem packet_count_per_fragment_witness :
    ((tableGet (process_events AnalyzerConfig.default [] [evSynAck] 0)
        ("10.0.0.1" ++ ":" ++ toString (0 : Nat))).map
      fun p => p.metadata.packet_count) = some ([evSynAck].length) ∧
    ((analyze AnalyzerConfig.default evSyn 0).map
      fun q => q.metadata.packet_count) = some 2 := by
  obtain ⟨htab, -, hsyn2⟩ := packet_count_per_fragment AnalyzerConfig.default 0
  constructor
  · refine htab [evSynAck] "10.0.0.1" (by simp) ?_
    intro r hr
    simp only [List.mem_singleton] at hr
    subst hr
    constructor
    · refine ⟨rfl, rfl, rfl, rfl, Or.inl ⟨_, rfl, rfl, rfl, rfl, ?_⟩⟩
      norm_num [AnalyzerConfig.default, evSynAck]
    · rfl
  · refine hsyn2 _ evSyn rfl rfl rfl rfl rfl rfl rfl rfl ?_
    norm_num [AnalyzerConfig.default, evSyn]
